import Mathlib

/-
Verification development for `server_inventory.py`: a concurrent remote-inventory
collector.  The Python source is shallowly embedded below.  Remote I/O (the SSH
channel of class `Server`) is modelled by an environment `Env` that gives, for the
connection attempt and for each command string, either the command's stripped
standard output or the text of a raised exception.  All string operations of the
source (`str.split`, `str.strip`, `str.startswith`, `str.endswith`, the regex
`/dev/.*p\d+$`) are re-implemented structurally on `List Char` so that every
definition evaluates inside the kernel.
-/

set_option autoImplicit false

deriving instance DecidableEq for Except

namespace ServerInventory

/-! Python string primitives -/

/-- Split a character list at every character satisfying `p`, keeping empty
groups (mirrors CPython `str.split(sep)` for a one-character separator when
`p` tests equality with that separator). -/
def splitByPred (p : Char → Bool) : List Char → List (List Char)
  | [] => [[]]
  | c :: cs =>
    let r := splitByPred p cs
    if p c then [] :: r
    else
      match r with
      | g :: gs => (c :: g) :: gs
      | [] => [[c]]

/-- Python `s.split(sep)` for a single-character separator: keeps empty fields. -/
def pySplitOn (s : String) (sep : Char) : List String :=
  (splitByPred (fun c => c == sep) s.data).map (fun l => (⟨l⟩ : String))

/-- Python `s.split()` (no argument): split on whitespace runs, dropping empty
fields, so leading/trailing whitespace yields nothing. -/
def pySplitWs (s : String) : List String :=
  ((splitByPred Char.isWhitespace s.data).map (fun l => (⟨l⟩ : String))).filter
    (fun t => t ≠ "")

/-- Python `s.strip()`: remove leading and trailing whitespace. -/
def pyStrip (s : String) : String :=
  ⟨((s.data.dropWhile Char.isWhitespace).reverse.dropWhile Char.isWhitespace).reverse⟩

/-- Python `s.startswith(p)`. -/
def pyStartsWith (s p : String) : Bool :=
  p.data.isPrefixOf s.data

/-- Python `s.endswith(p)`. -/
def pyEndsWith (s p : String) : Bool :=
  p.data.isSuffixOf s.data

/-! Data model: the dict shapes produced by `get_server_info` -/

/-- One GPU entry `{"type": ..., "vram": ...}`. -/
structure GpuFact where
  type : String
  vram : String
  deriving DecidableEq, Repr

/-- The CPU entry `{"count": ..., "type": ...}`. -/
structure CpuFact where
  count : String
  type : String
  deriving DecidableEq, Repr

/-- One storage entry `{"device", "mount", "uuid", "total", "available"}`. -/
structure StorageFact where
  device : String
  mount : String
  uuid : String
  total : String
  available : String
  deriving DecidableEq, Repr

/-- The per-host inventory dict returned on success by `get_server_info`. -/
structure HostInventory where
  hostname : String
  gpu : List GpuFact
  cpu : CpuFact
  ram : String
  storage : List StorageFact
  deriving DecidableEq, Repr

/-! The remote environment.

`connect` is the outcome of `Server.__init__` (the `ssh.connect` call);
`exec` gives, per command string, the outcome of `Server.exec_command`'s
`stdout.read().decode()` (before the final `.strip()`), or the text of the
exception the call raised. -/

structure Env where
  connect : Except String Unit
  exec : String → Except String String

/-- Model of `Server.exec_command`: run the command and strip the captured stdout. -/
def execCommand (env : Env) (cmd : String) : Except String String :=
  (env.exec cmd).map pyStrip

/-! The fixed command strings of `get_server_info` -/

def hostnameCmd : String := "hostname"

def gpuQueryCmd : String := "nvidia-smi --query-gpu=name,memory.total --format=csv,noheader"

def nprocCmd : String := "nproc"

def cpuTypeCmd : String := "lscpu | grep \x27Model name\x27 | cut -f 2 -d \x27:\x27"

def ramCmd : String := "free -h | awk \x27/^Mem:/ \x7bprint $2\x7d\x27"

def dfCmd : String := "df -h"

def blkidCmd (device : String) : String := "sudo blkid -s UUID -o value " ++ device

/-! GPU parsing -/

/-- The per-line GPU loop: skip lines that are empty after stripping, split the
rest on `,`; `name, vram = line.split(",")` raises unless there are exactly two
fields, which aborts the whole host (modelled by `Except.error`). -/
def parseGpuLines : List String → Except String (List GpuFact)
  | [] => .ok []
  | line :: rest =>
    if pyStrip line = "" then parseGpuLines rest
    else
      match pySplitOn line ',' with
      | [name, vram] =>
        (parseGpuLines rest).map (fun gs => ⟨pyStrip name, pyStrip vram⟩ :: gs)
      | _ => .error ("cannot unpack GPU line into two values: " ++ line)

/-- GPU parsing: `if gpu_info:` then iterate over `gpu_info.split("\n")`. -/
def parseGpus (gpuInfo : String) : Except String (List GpuFact) :=
  if gpuInfo = "" then .ok []
  else parseGpuLines (pySplitOn gpuInfo '\n')

/-! Storage filter -/

/-- The regex test `re.match(r"/dev/.*p\d+$", device)` (for device strings
without newline characters, which is all `df` fields, since they contain no
whitespace): the device starts with `/dev/`, ends in a nonempty run of digits,
and the character just before that maximal digit run is a literal `p`. -/
def devPartitionMatch (device : String) : Bool :=
  pyStartsWith device "/dev/" &&
    (let rev := (device.data.drop 5).reverse
     let ds := rev.takeWhile Char.isDigit
     !ds.isEmpty && ((rev.drop ds.length).head? == some 'p'))

/-- The two size conjuncts of the storage filter:
`size.endswith(("T", "G")) and not size.startswith(("1G","2G","3G","4G","5G"))`. -/
def sizeRule (size : String) : Bool :=
  (pyEndsWith size "T" || pyEndsWith size "G") &&
    !(pyStartsWith size "1G" || pyStartsWith size "2G" || pyStartsWith size "3G" ||
      pyStartsWith size "4G" || pyStartsWith size "5G")

/-- The full row filter of the storage loop, in the source's conjunct order. -/
def storageFilter (device size mount : String) : Bool :=
  pyStartsWith device "/dev/" &&
    !pyStartsWith device "/dev/loop" &&
    !devPartitionMatch device &&
    !pyStartsWith mount "/snap/" &&
    !pyStartsWith mount "/boot/" &&
    sizeRule size

/-- Spec-side reading of rule 3, following the spec's words: a device path that
is "a base device followed by a numeric partition suffix" (a nonempty base name
after `/dev/`, ending in a nonempty run of digits).  Kept separate from
`devPartitionMatch`, which embeds the source's regex, so the two can be
compared. -/
def specNumberedPartitionDevice (device : String) : Bool :=
  pyStartsWith device "/dev/" &&
    (let rev := (device.data.drop 5).reverse
     let ds := rev.takeWhile Char.isDigit
     !ds.isEmpty && !(rev.drop ds.length).isEmpty)

/-! Storage row loop -/

/-- Processing of one df row, given the whitespace-split fields of the line and
the (already modelled) result of processing the remaining rows.  Rows with
fewer than six fields are skipped; surviving rows cost one extra `blkid`
round trip whose failure aborts the host. -/
def storageRowStep (env : Env) (parts : List String)
    (tailRes : Except String (List StorageFact)) : Except String (List StorageFact) :=
  match parts with
  | device :: size :: _ :: available :: _ :: mount :: _ =>
    if storageFilter device size mount then
      match execCommand env (blkidCmd device) with
      | .error e => .error e
      | .ok uuid =>
        match tailRes with
        | .error e => .error e
        | .ok tail => .ok (⟨device, mount, pyStrip uuid, size, available⟩ :: tail)
    else tailRes
  | _ => tailRes

/-- The storage loop over `df_output.split("\n")[1:]`. -/
def storageRows (env : Env) : List String → Except String (List StorageFact)
  | [] => .ok []
  | line :: rest => storageRowStep env (pySplitWs line) (storageRows env rest)

/-! The per-host collection pipeline -/

/-- The body of the `try` block of `get_server_info` after the connection has
been established: the fixed command sequence and its parsing.  Any raised
exception is an `Except.error` carrying the exception text. -/
def collectFacts (env : Env) : Except String HostInventory :=
  match execCommand env hostnameCmd with
  | .error e => .error e
  | .ok hostname =>
    match execCommand env gpuQueryCmd with
    | .error e => .error e
    | .ok gpuInfo =>
      match parseGpus gpuInfo with
      | .error e => .error e
      | .ok gpus =>
        match execCommand env nprocCmd with
        | .error e => .error e
        | .ok cpuCount =>
          match execCommand env cpuTypeCmd with
          | .error e => .error e
          | .ok cpuType =>
            match execCommand env ramCmd with
            | .error e => .error e
            | .ok ramInfo =>
              match execCommand env dfCmd with
              | .error e => .error e
              | .ok dfOutput =>
                match storageRows env ((pySplitOn dfOutput '\n').drop 1) with
                | .error e => .error e
                | .ok storage =>
                  .ok ⟨hostname, gpus, ⟨pyStrip cpuCount, pyStrip cpuType⟩,
                    pyStrip ramInfo, storage⟩

/-- The whole `try` block: `Server(server_identifier)` (the connect), then the
collection pipeline. -/
def runCollect (env : Env) : Except String HostInventory :=
  match env.connect with
  | .error e => .error e
  | .ok _ => collectFacts env

def connectingMsg (id : String) : String := "Connecting to " ++ id ++ "..."

def errorMsg (id e : String) : String :=
  "Error collecting data from " ++ id ++ ": " ++ e

/-- The observable outcome of one `get_server_info` call: the returned pair,
whether `server.close()` was executed before returning, and the lines printed. -/
structure CollectOutcome where
  result : String × Option HostInventory
  closed : Bool
  log : List String
  deriving DecidableEq, Repr

/-- Model of `get_server_info`: on success the source calls `server.close()` and returns
`(identifier, data)`; the `except` handler prints the error and returns
`(identifier, None)` without ever calling `close()` (there is no `finally`). -/
def getServerInfo (env : Env) (id : String) : CollectOutcome :=
  match runCollect env with
  | .ok inv => ⟨(id, some inv), true, [connectingMsg id]⟩
  | .error e => ⟨(id, none), false, [connectingMsg id, errorMsg id e]⟩

/-! Dispatcher and aggregate report: `main`.

`main` submits one `get_server_info` task per entry of the host list.  A
submission is a pair of the host identifier and the remote environment that
submission encounters (two submissions for the same identifier may behave
differently, since they are separate SSH sessions).  The futures complete in an
arbitrary order (`as_completed`), modelled as any permutation of the list of
per-submission results; the dict `servers_data` is built by the loop
`if server_data: servers_data[server_identifier] = server_data`. -/

/-- The `(identifier, data)` pairs returned by the submitted futures, in
submission order. -/
def dispatchOutcomes (subs : List (String × Env)) : List (String × Option HostInventory) :=
  subs.map (fun p => (getServerInfo p.2 p.1).result)

/-- Python dict assignment `d[k] = v`: overwrite in place if the key is
present, else append. -/
def dictInsert : List (String × HostInventory) → String → HostInventory →
    List (String × HostInventory)
  | [], k, v => [(k, v)]
  | (k0, v0) :: rest, k, v =>
    if k0 = k then (k, v) :: rest else (k0, v0) :: dictInsert rest k v

/-- Python dict lookup `d[k]` (as an option). -/
def dictGet : List (String × HostInventory) → String → Option HostInventory
  | [], _ => none
  | (k0, v) :: rest, k => if k0 = k then some v else dictGet rest k

/-- The keys of the dict, in insertion order. -/
def dictKeys (m : List (String × HostInventory)) : List String :=
  m.map Prod.fst

/-- One iteration of the `as_completed` loop:
`if server_data: servers_data[server_identifier] = server_data`. -/
def reportStep (m : List (String × HostInventory)) :
    String × Option HostInventory → List (String × HostInventory)
  | (k, some v) => dictInsert m k v
  | (_, none) => m

/-- The `as_completed` loop folded over the completion-order list of results,
starting from the dict built so far. -/
def buildReportFrom (m : List (String × HostInventory)) :
    List (String × Option HostInventory) → List (String × HostInventory)
  | [] => m
  | p :: rest => buildReportFrom (reportStep m p) rest

/-- The dict `servers_data` after the `as_completed` loop, given the results in
completion order. -/
def buildReport (completions : List (String × Option HostInventory)) :
    List (String × HostInventory) :=
  buildReportFrom [] completions

/-- The data of the last successfully completed collection for identifier `k`
in the completion-order list (none if every collection for `k` failed). -/
def lastSuccess (k : String) : List (String × Option HostInventory) → Option HostInventory
  | [] => none
  | p :: rest =>
    match lastSuccess k rest with
    | some v => some v
    | none => if p.1 = k then p.2 else none

/-! Renderer: `create_spreadsheet`.

Modelled as the list of individual `ws.cell(row=..., column=..., value=...)`
writes together with the final value of the `row` counter. -/

/-- One worksheet cell write. -/
structure CellWrite where
  row : Nat
  col : Nat
  value : String
  deriving DecidableEq, Repr

def headers : List String :=
  ["Server Identifier", "Hostname", "GPU Type", "GPU VRAM", "CPU Count",
   "CPU Type", "RAM", "Storage Device", "Mount Path", "UUID",
   "Total Storage", "Available Storage"]

/-- The bold header row (row 1). -/
def headerWrites : List CellWrite :=
  headers.enum.map (fun p => ⟨1, p.1 + 1, p.2⟩)

/-- The `for gpu in gpu_info:` loop: four writes on the current row, then
`row += 1`. -/
def gpuLoop (id hn : String) : Nat → List GpuFact → List CellWrite × Nat
  | r, [] => ([], r)
  | r, g :: gs =>
    let rest := gpuLoop id hn (r + 1) gs
    (⟨r, 1, id⟩ :: ⟨r, 2, hn⟩ :: ⟨r, 3, g.type⟩ :: ⟨r, 4, g.vram⟩ :: rest.1, rest.2)

/-- The `for storage in storage_info:` loop: five writes on `row - 1`, then
`row += 1`. -/
def storageLoop : Nat → List StorageFact → List CellWrite × Nat
  | r, [] => ([], r)
  | r, s :: ss =>
    let rest := storageLoop (r + 1) ss
    (⟨r - 1, 8, s.device⟩ :: ⟨r - 1, 9, s.mount⟩ :: ⟨r - 1, 10, s.uuid⟩ ::
      ⟨r - 1, 11, s.total⟩ :: ⟨r - 1, 12, s.available⟩ :: rest.1, rest.2)

/-- The GPU section for one host: the GPU loop followed by the
`if not gpu_info:` fallback row (the source's "If no GPU, still add server
info"). -/
def gpuPhase (r : Nat) (id hn : String) (gs : List GpuFact) : List CellWrite × Nat :=
  let g := gpuLoop id hn r gs
  if gs.isEmpty then (g.1 ++ [⟨g.2, 1, id⟩, ⟨g.2, 2, hn⟩], g.2 + 1)
  else (g.1, g.2)

/-- The body of the per-host loop of `create_spreadsheet`, given the current
value of `row`: the error row for `None` data, else the GPU rows, the
blank-GPU row when there are no GPUs, the CPU/RAM writes on `row - 1`, and the
storage writes starting on `row - 1`. -/
def renderHost (r : Nat) (id : String) (data : Option HostInventory) :
    List CellWrite × Nat :=
  match data with
  | none => ([⟨r, 1, id⟩, ⟨r, 2, "Error collecting data"⟩], r + 1)
  | some d =>
    let p := gpuPhase r id d.hostname d.gpu
    let cpu : List CellWrite :=
      [⟨p.2 - 1, 5, d.cpu.count⟩, ⟨p.2 - 1, 6, d.cpu.type⟩, ⟨p.2 - 1, 7, d.ram⟩]
    let s := storageLoop p.2 d.storage
    (p.1 ++ cpu ++ s.1, s.2)

/-- The `for server_id, data in servers_data.items():` loop, from row 2. -/
def renderAll : Nat → List (String × Option HostInventory) → List CellWrite × Nat
  | r, [] => ([], r)
  | r, (id, d) :: rest =>
    let h := renderHost r id d
    let t := renderAll h.2 rest
    (h.1 ++ t.1, t.2)

/-- All cell writes performed by `create_spreadsheet` on the given dict items. -/
def createSpreadsheet (items : List (String × Option HostInventory)) : List CellWrite :=
  headerWrites ++ (renderAll 2 items).1

/-- The set of worksheet rows a list of cell writes touches. -/
def rowsTouched (ws : List CellWrite) : Finset Nat :=
  (ws.map CellWrite.row).toFinset

/-! Concrete environments and inventories used in counterexamples and
witnesses -/

/-- A host whose SSH connection attempt raises. -/
def failEnv : Env := ⟨.error "unreachable", fun _ => .error "unreachable"⟩

/-- A reachable host on which every command succeeds with empty output. -/
def okEnv : Env := ⟨.ok (), fun _ => .ok ""⟩

/-- A reachable host with a given hostname and empty output for every other
command. -/
def hostEnv (hn : String) : Env :=
  ⟨.ok (), fun c => if c = hostnameCmd then .ok hn else .ok ""⟩

/-- A reachable host on which every command raises. -/
def execFailEnv : Env := ⟨.ok (), fun _ => .error "boom"⟩

/-- A reachable host whose GPU query yields a line with no comma. -/
def badGpuEnv : Env :=
  ⟨.ok (), fun c => if c = gpuQueryCmd then .ok "badline" else .ok ""⟩

/-- A fleet in which host "a" is reachable and every other host is not. -/
def envOfW : String → Env := fun h => if h = "a" then hostEnv "ha" else failEnv

/-- The inventory collected from `okEnv`. -/
def emptyInv : HostInventory := ⟨"", [], ⟨"", ""⟩, "", []⟩

/-- The inventory collected from `hostEnv hn`. -/
def hostInv (hn : String) : HostInventory := ⟨hn, [], ⟨"", ""⟩, "", []⟩

/-- An inventory with two GPUs and two storage devices, for the renderer
fan-out counterexample. -/
def twoTwoInv : HostInventory :=
  ⟨"h", [⟨"A", "1"⟩, ⟨"B", "2"⟩], ⟨"8", "X"⟩, "64G",
   [⟨"/dev/sda", "/", "u1", "500G", "100G"⟩, ⟨"/dev/sdb", "/d", "u2", "1T", "1T"⟩]⟩


/-! Helper lemmas -/

/-- Both branches of `get_server_info` return the submitted identifier as the
first component of the result pair. -/
theorem getServerInfo_result_fst (env : Env) (id : String) :
    (getServerInfo env id).result.1 = id := by
  cases h : runCollect env <;> simp [getServerInfo, h]

/-- A retained storage row passed the two size conjuncts. -/
theorem storageFilter_sizeRule {device size mount : String}
    (h : storageFilter device size mount = true) : sizeRule size = true := by
  simp only [storageFilter, Bool.and_eq_true] at h
  exact h.2

/-- A retained storage row did not match the partition regex. -/
theorem storageFilter_no_partition {device size mount : String}
    (h : storageFilter device size mount = true) : devPartitionMatch device = false := by
  simp only [storageFilter, Bool.and_eq_true] at h
  simpa using h.1.1.1.2

/-- A df row with fewer than six whitespace fields contributes nothing: no
fact, no blkid round trip, no error. -/
theorem storageRowStep_skip (env : Env) (t : Except String (List StorageFact))
    {parts : List String} (h : parts.length < 6) : storageRowStep env parts t = t := by
  rcases parts with _ | ⟨a, _ | ⟨b, _ | ⟨c, _ | ⟨d, _ | ⟨e, _ | ⟨f, rest⟩⟩⟩⟩⟩⟩
  · rfl
  · rfl
  · rfl
  · rfl
  · rfl
  · rfl
  · exfalso; simp at h; omega

/-- A line that is nonempty after stripping and does not split on commas into
exactly two fields makes the GPU line loop raise. -/
theorem parseGpuLines_error_of_badline :
    ∀ (ls : List String) (l : String), l ∈ ls → pyStrip l ≠ "" →
      (pySplitOn l ',').length ≠ 2 → ∃ e, parseGpuLines ls = .error e := by
  intro ls
  induction ls with
  | nil => intro l hmem _ _; exact absurd hmem (List.not_mem_nil l)
  | cons head rest ih =>
    intro l hmem hne hbad
    rcases List.mem_cons.mp hmem with hhead | htail
    · subst hhead
      rcases hsp : pySplitOn l ',' with _ | ⟨a, _ | ⟨b, _ | ⟨c, cs⟩⟩⟩
      · simp only [parseGpuLines, if_neg hne, hsp]; exact ⟨_, rfl⟩
      · simp only [parseGpuLines, if_neg hne, hsp]; exact ⟨_, rfl⟩
      · rw [hsp] at hbad; simp at hbad
      · simp only [parseGpuLines, if_neg hne, hsp]; exact ⟨_, rfl⟩
    · obtain ⟨e, he⟩ := ih l htail hne hbad
      by_cases hh : pyStrip head = ""
      · simp only [parseGpuLines, if_pos hh]
        exact ⟨e, he⟩
      · rcases hsp : pySplitOn head ',' with _ | ⟨a, _ | ⟨b, _ | ⟨c, cs⟩⟩⟩
        · simp only [parseGpuLines, if_neg hh, hsp]; exact ⟨_, rfl⟩
        · simp only [parseGpuLines, if_neg hh, hsp]; exact ⟨_, rfl⟩
        · simp only [parseGpuLines, if_neg hh, hsp]
          exact ⟨e, by rw [he]; rfl⟩
        · simp only [parseGpuLines, if_neg hh, hsp]; exact ⟨_, rfl⟩

/-- A GPU query output with a bad nonempty line makes `parseGpus` raise. -/
theorem parseGpus_error_of_badline {g l : String}
    (hmem : l ∈ pySplitOn g '\n') (hne : pyStrip l ≠ "")
    (hbad : (pySplitOn l ',').length ≠ 2) : ∃ e, parseGpus g = .error e := by
  have hg : g ≠ "" := by
    rintro rfl
    have hl : l = "" := by simpa [pySplitOn, splitByPred] using hmem
    exact hne (by rw [hl]; rfl)
  rw [parseGpus, if_neg hg]
  exact parseGpuLines_error_of_badline _ l hmem hne hbad

/-! Dict and report lemmas -/

theorem dictKeys_nil : dictKeys [] = [] := rfl

theorem dictKeys_cons (p : String × HostInventory) (m : List (String × HostInventory)) :
    dictKeys (p :: m) = p.1 :: dictKeys m := rfl

/-- Lookup after a Python dict assignment. -/
theorem dictGet_dictInsert :
    ∀ (m : List (String × HostInventory)) (k : String) (v : HostInventory) (k' : String),
      dictGet (dictInsert m k v) k' = if k = k' then some v else dictGet m k'
  | [], k, v, k' => by simp [dictInsert, dictGet]
  | (k0, v0) :: rest, k, v, k' => by
    by_cases h : k0 = k
    · subst h
      by_cases h2 : k0 = k'
      · subst h2; simp [dictInsert, dictGet]
      · simp [dictInsert, dictGet, h2]
    · by_cases h2 : k0 = k'
      · subst h2
        have hkk : ¬ k = k0 := fun hh => h hh.symm
        simp [dictInsert, dictGet, h, hkk]
      · simp [dictInsert, dictGet, h, h2, dictGet_dictInsert rest k v k']

/-- Key membership after a Python dict assignment. -/
theorem mem_dictKeys_dictInsert :
    ∀ (m : List (String × HostInventory)) (k : String) (v : HostInventory) (k' : String),
      k' ∈ dictKeys (dictInsert m k v) ↔ k' = k ∨ k' ∈ dictKeys m
  | [], k, v, k' => by simp [dictInsert, dictKeys_cons, dictKeys_nil]
  | (k0, v0) :: rest, k, v, k' => by
    by_cases h : k0 = k
    · subst h
      simp only [dictInsert, eq_self_iff_true, if_true, dictKeys_cons, List.mem_cons]
      tauto
    · simp only [dictInsert, if_neg h, dictKeys_cons, List.mem_cons,
        mem_dictKeys_dictInsert rest k v k']
      tauto

/-- Python dict assignment never duplicates a key. -/
theorem dictKeys_dictInsert_nodup :
    ∀ (m : List (String × HostInventory)) (k : String) (v : HostInventory),
      (dictKeys m).Nodup → (dictKeys (dictInsert m k v)).Nodup
  | [], k, v, _ => by simp [dictInsert, dictKeys_cons, dictKeys_nil]
  | (k0, v0) :: rest, k, v, h => by
    rw [dictKeys_cons] at h
    by_cases hk : k0 = k
    · subst hk
      simp only [dictInsert, eq_self_iff_true, if_true, dictKeys_cons]
      exact h
    · simp only [dictInsert, if_neg hk, dictKeys_cons]
      rw [List.nodup_cons] at h ⊢
      refine ⟨?_, dictKeys_dictInsert_nodup rest k v h.2⟩
      intro hmem
      rcases (mem_dictKeys_dictInsert rest k v k0).mp hmem with rfl | hmem2
      · exact hk rfl
      · exact h.1 hmem2

/-- An identifier is a key of the built report exactly when it already was one,
or some completion for it succeeded. -/
theorem mem_dictKeys_buildReportFrom :
    ∀ (l : List (String × Option HostInventory)) (m : List (String × HostInventory))
      (k : String),
      k ∈ dictKeys (buildReportFrom m l) ↔ k ∈ dictKeys m ∨ ∃ v, (k, some v) ∈ l
  | [], m, k => by simp [buildReportFrom]
  | (k0, d) :: rest, m, k => by
    rw [buildReportFrom, mem_dictKeys_buildReportFrom rest (reportStep m (k0, d)) k]
    cases d with
    | none =>
      simp only [reportStep, List.mem_cons, Prod.mk.injEq]
      constructor
      · rintro (hm | ⟨v, hv⟩)
        · exact Or.inl hm
        · exact Or.inr ⟨v, Or.inr hv⟩
      · rintro (hm | ⟨v, (⟨_, hv⟩ | hv)⟩)
        · exact Or.inl hm
        · exact absurd hv (by simp)
        · exact Or.inr ⟨v, hv⟩
    | some w =>
      simp only [reportStep, mem_dictKeys_dictInsert, List.mem_cons, Prod.mk.injEq,
        Option.some.injEq]
      constructor
      · rintro ((rfl | hm) | ⟨v, hv⟩)
        · exact Or.inr ⟨w, Or.inl ⟨rfl, rfl⟩⟩
        · exact Or.inl hm
        · exact Or.inr ⟨v, Or.inr hv⟩
      · rintro (hm | ⟨v, (⟨rfl, rfl⟩ | hv)⟩)
        · exact Or.inl (Or.inr hm)
        · exact Or.inl (Or.inl rfl)
        · exact Or.inr ⟨v, hv⟩

/-- With no successful completion for the key, the report leaves its entry
unchanged. -/
theorem dictGet_buildReportFrom_of_lastSuccess_none :
    ∀ (l : List (String × Option HostInventory)) (m : List (String × HostInventory))
      (k : String), lastSuccess k l = none →
      dictGet (buildReportFrom m l) k = dictGet m k
  | [], _, _, _ => rfl
  | (k0, d) :: rest, m, k, h => by
    have hr : lastSuccess k rest = none := by
      rw [lastSuccess] at h
      rcases hrs : lastSuccess k rest with _ | w
      · rfl
      · rw [hrs] at h; cases h
    have hcond : (if k0 = k then d else none) = none := by
      rw [lastSuccess, hr] at h; exact h
    rw [buildReportFrom,
      dictGet_buildReportFrom_of_lastSuccess_none rest (reportStep m (k0, d)) k hr]
    cases d with
    | none => rfl
    | some w =>
      show dictGet (dictInsert m k0 w) k = dictGet m k
      rw [dictGet_dictInsert]
      by_cases hk : k0 = k
      · rw [if_pos hk] at hcond; cases hcond
      · rw [if_neg hk]

/-- The key's report entry is the data of the last successful completion. -/
theorem dictGet_buildReportFrom_of_lastSuccess_some :
    ∀ (l : List (String × Option HostInventory)) (m : List (String × HostInventory))
      (k : String) (v : HostInventory), lastSuccess k l = some v →
      dictGet (buildReportFrom m l) k = some v
  | [], _, _, _, h => by cases h
  | (k0, d) :: rest, m, k, v, h => by
    rw [buildReportFrom]
    rcases hrs : lastSuccess k rest with _ | w
    · have hcond : (if k0 = k then d else none) = some v := by
        rw [lastSuccess, hrs] at h; exact h
      by_cases hk : k0 = k
      · rw [if_pos hk] at hcond
        subst hcond
        rw [dictGet_buildReportFrom_of_lastSuccess_none rest _ k hrs]
        show dictGet (dictInsert m k0 v) k = some v
        rw [dictGet_dictInsert, if_pos hk]
      · rw [if_neg hk] at hcond; cases hcond
    · have hwv : w = v := by
        rw [lastSuccess, hrs] at h
        exact Option.some.inj h
      subst hwv
      exact dictGet_buildReportFrom_of_lastSuccess_some rest _ k w hrs

/-- The report maps every identifier to its last successful completion. -/
theorem dictGet_buildReport (comp : List (String × Option HostInventory)) (k : String) :
    dictGet (buildReport comp) k = lastSuccess k comp := by
  rcases h : lastSuccess k comp with _ | v
  · rw [buildReport, dictGet_buildReportFrom_of_lastSuccess_none comp [] k h]; rfl
  · rw [buildReport, dictGet_buildReportFrom_of_lastSuccess_some comp [] k v h]

/-- The report never holds two entries for one identifier. -/
theorem buildReportFrom_nodup :
    ∀ (l : List (String × Option HostInventory)) (m : List (String × HostInventory)),
      (dictKeys m).Nodup → (dictKeys (buildReportFrom m l)).Nodup
  | [], _, h => h
  | (k0, d) :: rest, m, h => by
    rw [buildReportFrom]
    apply buildReportFrom_nodup rest
    cases d with
    | none => exact h
    | some w => exact dictKeys_dictInsert_nodup m k0 w h

/-! Renderer lemmas -/

theorem rowsTouched_append (a b : List CellWrite) :
    rowsTouched (a ++ b) = rowsTouched a ∪ rowsTouched b := by
  simp [rowsTouched, List.toFinset_append]

theorem gpuLoop_snd (id hn : String) :
    ∀ (gs : List GpuFact) (r : Nat), (gpuLoop id hn r gs).2 = r + gs.length
  | [], r => by simp [gpuLoop]
  | g :: gs, r => by
    simp [gpuLoop, gpuLoop_snd id hn gs (r + 1)]
    omega

/-- The GPU loop writes exactly the rows of the interval it advances over. -/
theorem gpuLoop_rows (id hn : String) :
    ∀ (gs : List GpuFact) (r : Nat),
      rowsTouched (gpuLoop id hn r gs).1 = Finset.Ico r (r + gs.length)
  | [], r => by simp [gpuLoop, rowsTouched]
  | g :: gs, r => by
    simp only [gpuLoop, rowsTouched, List.map_cons, List.toFinset_cons]
    rw [show ((gpuLoop id hn (r + 1) gs).1.map CellWrite.row).toFinset =
      rowsTouched (gpuLoop id hn (r + 1) gs).1 from rfl]
    rw [gpuLoop_rows id hn gs (r + 1)]
    ext x
    simp only [Finset.mem_insert, Finset.mem_Ico, List.length_cons]
    omega

theorem storageLoop_snd :
    ∀ (ss : List StorageFact) (r : Nat), (storageLoop r ss).2 = r + ss.length
  | [], r => by simp [storageLoop]
  | s :: ss, r => by
    simp [storageLoop, storageLoop_snd ss (r + 1)]
    omega

/-- The storage loop writes on the rows one below its counter interval. -/
theorem storageLoop_rows :
    ∀ (ss : List StorageFact) (r : Nat), 1 ≤ r →
      rowsTouched (storageLoop r ss).1 = Finset.Ico (r - 1) (r - 1 + ss.length)
  | [], r, _ => by simp [storageLoop, rowsTouched]
  | s :: ss, r, hr => by
    simp only [storageLoop, rowsTouched, List.map_cons, List.toFinset_cons]
    rw [show ((storageLoop (r + 1) ss).1.map CellWrite.row).toFinset =
      rowsTouched (storageLoop (r + 1) ss).1 from rfl]
    rw [storageLoop_rows ss (r + 1) (by omega)]
    ext x
    simp only [Finset.mem_insert, Finset.mem_Ico, List.length_cons]
    omega

theorem gpuPhase_snd (r : Nat) (id hn : String) (gs : List GpuFact) :
    (gpuPhase r id hn gs).2 = r + max gs.length 1 := by
  by_cases h : gs.isEmpty
  · have hgs : gs = [] := List.isEmpty_iff.mp h
    subst hgs
    simp [gpuPhase, gpuLoop]
  · have hlen : 1 ≤ gs.length := by
      cases gs with
      | nil => simp at h
      | cons a as => simp
    simp only [gpuPhase, if_neg h, gpuLoop_snd]
    omega

/-- The GPU section (loop plus no-GPU fallback row) covers exactly
`max gs.length 1` rows starting at the current row. -/
theorem gpuPhase_rows (r : Nat) (id hn : String) (gs : List GpuFact) :
    rowsTouched (gpuPhase r id hn gs).1 = Finset.Ico r (r + max gs.length 1) := by
  by_cases h : gs.isEmpty
  · have hgs : gs = [] := List.isEmpty_iff.mp h
    subst hgs
    rw [show gpuPhase r id hn [] =
      ([(⟨r, 1, id⟩ : CellWrite), ⟨r, 2, hn⟩], r + 1) from rfl]
    ext x
    simp [rowsTouched, Finset.mem_Ico]
  · have hlen : 1 ≤ gs.length := by
      cases gs with
      | nil => simp at h
      | cons a as => simp
    simp only [gpuPhase, if_neg h]
    rw [gpuLoop_rows]
    ext x
    simp only [Finset.mem_Ico]
    omega

/-! Claim C1 -/

/-- C1, counterexample to the claim as stated: for a host whose session opens
(`connect` succeeds) but whose first command raises, `get_server_info` returns
without ever executing `server.close()` — the claim that the session is closed
on every failure path is false on this input. -/
theorem c1_claim_counterexample :
    execFailEnv.connect = .ok () ∧
    (getServerInfo execFailEnv "host1").closed = false := ⟨rfl, by decide⟩

/-- C1, amended: `server.close()` is executed before `get_server_info` returns
exactly on the success path — the session is closed if and only if a populated
HostInventory is returned; on every failure path the `except` handler returns
without closing (there is no `finally`). -/
theorem c1_session_close_iff_success (env : Env) (id : String) :
    (getServerInfo env id).closed = (getServerInfo env id).result.2.isSome := by
  cases h : runCollect env <;> simp [getServerInfo, h]

/-! Claim C3 -/

/-- C3: every exception raised during a host's collection (session open,
command execution, or parsing) is caught at the `get_server_info` boundary and
converted into the pair `(identifier, None)` together with a printed diagnostic
carrying the host identifier and the error text; no partial inventory is
returned, and on success the full inventory is returned — `get_server_info`
is total, so nothing propagates to the dispatcher. -/
theorem c3_failure_conversion (env : Env) (id : String) :
    (getServerInfo env id).result.1 = id ∧
    (∀ e, runCollect env = .error e →
      getServerInfo env id =
        ⟨(id, none), false, [connectingMsg id, errorMsg id e]⟩) ∧
    (∀ inv, runCollect env = .ok inv →
      getServerInfo env id = ⟨(id, some inv), true, [connectingMsg id]⟩) := by
  refine ⟨getServerInfo_result_fst env id, ?_, ?_⟩
  · intro e he; simp [getServerInfo, he]
  · intro inv hi; simp [getServerInfo, hi]

/-- C3, witness: an unreachable host is converted into `("web1", None)` with
the diagnostic line carrying the error text. -/
theorem c3_failure_conversion_witness :
    runCollect failEnv = .error "unreachable" ∧
    getServerInfo failEnv "web1" =
      ⟨("web1", none), false, [connectingMsg "web1", errorMsg "web1" "unreachable"]⟩ :=
  ⟨rfl, (c3_failure_conversion failEnv "web1").2.1 "unreachable" rfl⟩

/-! Claim C4 -/

/-- C4: a row retained by the storage filter has a size ending in "T" or "G"
and not starting with any of the two-character prefixes "1G".."5G"; the size
"3G" fails the size rules while "15G" passes both (string-prefix match, not a
numeric comparison), and the spec's row `/dev/sdb 3G 1G 2G 33% /mnt` is
excluded. -/
theorem c4_size_rules :
    (∀ device size mount, storageFilter device size mount = true →
      (pyEndsWith size "T" || pyEndsWith size "G") = true ∧
      pyStartsWith size "1G" = false ∧ pyStartsWith size "2G" = false ∧
      pyStartsWith size "3G" = false ∧ pyStartsWith size "4G" = false ∧
      pyStartsWith size "5G" = false) ∧
    sizeRule "3G" = false ∧ sizeRule "15G" = true ∧
    storageFilter "/dev/sdb" "3G" "/mnt" = false := by
  refine ⟨?_, by decide, by decide, by decide⟩
  intro device size mount h
  have h6 := storageFilter_sizeRule h
  simp only [sizeRule, Bool.and_eq_true, Bool.not_eq_true', Bool.or_eq_false_iff] at h6
  exact ⟨h6.1, h6.2.1.1.1.1, h6.2.1.1.1.2, h6.2.1.1.2, h6.2.1.2, h6.2.2⟩

/-- C4, witness: the retained row `/dev/sda 500G /data` satisfies the size
rules. -/
theorem c4_size_rules_witness :
    storageFilter "/dev/sda" "500G" "/data" = true ∧
    ((pyEndsWith "500G" "T" || pyEndsWith "500G" "G") = true ∧
      pyStartsWith "500G" "1G" = false ∧ pyStartsWith "500G" "2G" = false ∧
      pyStartsWith "500G" "3G" = false ∧ pyStartsWith "500G" "4G" = false ∧
      pyStartsWith "500G" "5G" = false) :=
  ⟨by decide, c4_size_rules.1 "/dev/sda" "500G" "/data" (by decide)⟩

/-! Claim C5 -/

/-- C5, counterexample to the claim as stated: `/dev/sda1` is a base device
followed by a numeric partition suffix, yet the row
`/dev/sda1 500G ... /data` passes the whole filter and is retained — the
claim that all numbered partitions are excluded is false on this input. -/
theorem c5_claim_counterexample :
    specNumberedPartitionDevice "/dev/sda1" = true ∧
    storageFilter "/dev/sda1" "500G" "/data" = true := by
  constructor <;> decide

/-- C5, amended: rule 3 only excludes devices matching the literal regex
`/dev/.*p\d+$` — a trailing digit run immediately preceded by the letter `p`
(NVMe-style partition names such as `/dev/nvme0n1p1`); numeric suffixes not
preceded by `p`, such as `/dev/sda1`, are not excluded by it. -/
theorem c5_partition_rule :
    (∀ device size mount, storageFilter device size mount = true →
      devPartitionMatch device = false) ∧
    devPartitionMatch "/dev/nvme0n1p1" = true ∧
    devPartitionMatch "/dev/sda1" = false := by
  refine ⟨?_, by decide, by decide⟩
  intro device size mount h
  exact storageFilter_no_partition h

/-- C5, witness: the retained row `/dev/sda 500G /data` does not match the
partition regex. -/
theorem c5_partition_rule_witness :
    storageFilter "/dev/sda" "500G" "/data" = true ∧
    devPartitionMatch "/dev/sda" = false :=
  ⟨by decide, c5_partition_rule.1 "/dev/sda" "500G" "/data" (by decide)⟩

/-! Claim C6 -/

/-- C6: GPU parsing splits each non-empty line on the comma into exactly two
trimmed fields, and on the spec's two-line A100 input it yields exactly two
GPU entries with type "NVIDIA A100" and vram "40960 MiB", in line order. -/
theorem c6_gpu_parsing :
    parseGpus "NVIDIA A100, 40960 MiB\nNVIDIA A100, 40960 MiB" =
      .ok [⟨"NVIDIA A100", "40960 MiB"⟩, ⟨"NVIDIA A100", "40960 MiB"⟩] ∧
    (∀ line name vram, pyStrip line ≠ "" → pySplitOn line ',' = [name, vram] →
      parseGpuLines [line] = .ok [⟨pyStrip name, pyStrip vram⟩]) := by
  refine ⟨by decide, ?_⟩
  intro line name vram hne hsplit
  simp [parseGpuLines, hne, hsplit, Except.map]

/-- C6, witness: a single A100 line splits into exactly two fields and parses
to the trimmed pair. -/
theorem c6_gpu_parsing_witness :
    pySplitOn "NVIDIA A100, 40960 MiB" ',' = ["NVIDIA A100", " 40960 MiB"] ∧
    parseGpuLines ["NVIDIA A100, 40960 MiB"] =
      .ok [⟨pyStrip "NVIDIA A100", pyStrip " 40960 MiB"⟩] :=
  ⟨by decide, c6_gpu_parsing.2 "NVIDIA A100, 40960 MiB" "NVIDIA A100" " 40960 MiB"
    (by decide) (by decide)⟩

/-! Claim C9 -/

/-- C9: if the GPU query output contains a non-empty line that does not split
on commas into exactly two fields, the two-field unpacking raises, the whole
per-host collection aborts, and the host is reported as `(identifier, None)` —
no inventory at all is produced for it. -/
theorem c9_bad_gpu_line_aborts_host (env : Env) (id hn g l : String)
    (hc : env.connect = .ok ())
    (hh : execCommand env hostnameCmd = .ok hn)
    (hg : execCommand env gpuQueryCmd = .ok g)
    (hmem : l ∈ pySplitOn g '\n') (hne : pyStrip l ≠ "")
    (hbad : (pySplitOn l ',').length ≠ 2) :
    (getServerInfo env id).result = (id, none) := by
  obtain ⟨e, he⟩ := parseGpus_error_of_badline hmem hne hbad
  have hcf : collectFacts env = .error e := by
    simp only [collectFacts, hh, hg, he]
  have hrc : runCollect env = .error e := by
    simp only [runCollect, hc, hcf]
  simp [getServerInfo, hrc]

/-- C9, witness: a host whose GPU query returns the comma-free line "badline"
is reported as a failure. -/
theorem c9_bad_gpu_line_aborts_host_witness :
    (pySplitOn "badline" ',').length ≠ 2 ∧
    (getServerInfo badGpuEnv "gpuhost").result = ("gpuhost", none) :=
  ⟨by decide, c9_bad_gpu_line_aborts_host badGpuEnv "gpuhost" "" "badline" "badline"
    rfl rfl rfl (by decide) (by decide) (by decide)⟩

/-! Claim C10 -/

/-- C10: a df line (after the header) that splits into fewer than six
whitespace-delimited fields is silently skipped — it contributes no storage
fact, triggers no blkid lookup, and raises no error, whatever its content. -/
theorem c10_short_df_line_skipped (env : Env) (line : String)
    (rest : List String) (h : (pySplitWs line).length < 6) :
    storageRows env (line :: rest) = storageRows env rest :=
  storageRowStep_skip env (storageRows env rest) h

/-- C10, witness: a five-field tmpfs line is skipped. -/
theorem c10_short_df_line_skipped_witness :
    (pySplitWs "tmpfs 790M 2M 788M 1%").length < 6 ∧
    storageRows okEnv ["tmpfs 790M 2M 788M 1%"] = storageRows okEnv [] :=
  ⟨by decide, c10_short_df_line_skipped okEnv _ [] (by decide)⟩

/-! Claim C2 -/

/-- C2, counterexample to the claim as stated: for a host list consisting of
the single unreachable host "a", the dispatcher yields the outcome
`("a", None)`, but the exported aggregate dict `servers_data` is empty — the
failed host has no entry at all (no explicit failure marker), so "one entry
per submitted host" is false on this input. -/
theorem c2_claim_counterexample :
    dispatchOutcomes [("a", failEnv)] = [("a", none)] ∧
    dictKeys (buildReport (dispatchOutcomes [("a", failEnv)])) = [] := by
  constructor
  · decide
  · decide

/-- C2, amended: the dispatcher produces exactly one outcome per submitted
host (N outcomes for N submissions, the i-th keyed by the i-th host), but the
exported aggregate dict keeps exactly the identifiers with at least one
successful collection; hosts whose every collection failed are absent from it
rather than present with a failure marker. -/
theorem c2_dispatch_and_report (hosts : List String) (envOf : String → Env)
    (comp : List (String × Option HostInventory))
    (hperm : comp.Perm (dispatchOutcomes (hosts.map (fun h => (h, envOf h))))) :
    (dispatchOutcomes (hosts.map (fun h => (h, envOf h)))).length = hosts.length ∧
    (dispatchOutcomes (hosts.map (fun h => (h, envOf h)))).map Prod.fst = hosts ∧
    ∀ k, k ∈ dictKeys (buildReport comp) ↔
      ∃ v, (k, some v) ∈ dispatchOutcomes (hosts.map (fun h => (h, envOf h))) := by
  refine ⟨by simp [dispatchOutcomes], ?_, ?_⟩
  · simp only [dispatchOutcomes, List.map_map]
    have hfun : (Prod.fst ∘ (fun p : String × Env => (getServerInfo p.2 p.1).result) ∘
        fun h => (h, envOf h)) = fun h => h := by
      funext h
      simp [Function.comp, getServerInfo_result_fst]
    rw [hfun]
    exact List.map_id hosts
  · intro k
    rw [buildReport, mem_dictKeys_buildReportFrom comp [] k]
    simp only [dictKeys_nil, List.not_mem_nil, false_or]
    exact ⟨fun ⟨v, hv⟩ => ⟨v, hperm.mem_iff.mp hv⟩,
      fun ⟨v, hv⟩ => ⟨v, hperm.mem_iff.mpr hv⟩⟩

/-- C2, witness: for the two-host fleet with "a" reachable and "b" not, the
dispatcher yields two outcomes and "a" is a key of the report exactly because
it has a successful outcome. -/
theorem c2_dispatch_and_report_witness :
    (dispatchOutcomes (["a", "b"].map (fun h => (h, envOfW h)))).length = 2 ∧
    ("a" ∈ dictKeys (buildReport (dispatchOutcomes (["a", "b"].map (fun h => (h, envOfW h))))) ↔
      ∃ v, ("a", some v) ∈ dispatchOutcomes (["a", "b"].map (fun h => (h, envOfW h)))) :=
  ⟨(c2_dispatch_and_report ["a", "b"] envOfW _ (List.Perm.refl _)).1,
    (c2_dispatch_and_report ["a", "b"] envOfW _ (List.Perm.refl _)).2.2 "a"⟩

/-! Claim C7 -/

/-- C7, counterexample to the claim as stated: for the host list with the
duplicate entry "a" submitted twice and both collections failing, the
aggregate report is empty — it does not contain exactly one entry for "a",
so the claim is false on this input. -/
theorem c7_claim_counterexample :
    dispatchOutcomes [("a", failEnv), ("a", failEnv)] = [("a", none), ("a", none)] ∧
    buildReport [("a", none), ("a", none)] = [] := by
  constructor
  · decide
  · decide

/-- C7, amended: the aggregate report holds at most one entry per identifier
(its keys are duplicate-free); an identifier has an entry exactly when one of
its submitted collections succeeded, and that entry holds the data of the last
successfully completed duplicate in completion order (a duplicate failing
after a success does not remove or overwrite the earlier success). -/
theorem c7_duplicate_last_success (subs : List (String × Env))
    (comp : List (String × Option HostInventory)) (k : String)
    (hperm : comp.Perm (dispatchOutcomes subs)) :
    (dictKeys (buildReport comp)).Nodup ∧
    dictGet (buildReport comp) k = lastSuccess k comp ∧
    (k ∈ dictKeys (buildReport comp) ↔ ∃ v, (k, some v) ∈ dispatchOutcomes subs) := by
  refine ⟨buildReportFrom_nodup comp [] (by rw [dictKeys_nil]; exact List.nodup_nil),
    dictGet_buildReport comp k, ?_⟩
  rw [buildReport, mem_dictKeys_buildReportFrom comp [] k]
  simp only [dictKeys_nil, List.not_mem_nil, false_or]
  exact ⟨fun ⟨v, hv⟩ => ⟨v, hperm.mem_iff.mp hv⟩,
    fun ⟨v, hv⟩ => ⟨v, hperm.mem_iff.mpr hv⟩⟩

/-- C7, witness: with "a" submitted twice, both succeeding with hostnames
"h1" then "h2", the report's entry for "a" is the inventory of the later
completion. -/
theorem c7_duplicate_last_success_witness :
    dictGet (buildReport (dispatchOutcomes [("a", hostEnv "h1"), ("a", hostEnv "h2")])) "a" =
      lastSuccess "a" (dispatchOutcomes [("a", hostEnv "h1"), ("a", hostEnv "h2")]) ∧
    lastSuccess "a" (dispatchOutcomes [("a", hostEnv "h1"), ("a", hostEnv "h2")]) =
      some (hostInv "h2") :=
  ⟨(c7_duplicate_last_success [("a", hostEnv "h1"), ("a", hostEnv "h2")] _ "a"
      (List.Perm.refl _)).2.1, by decide⟩

/-! Claim C8 -/

/-- C8, counterexample to the claim as stated: a host with two GPUs and two
storage devices occupies three worksheet rows, not
`max(gpu count, storage count, 1) = 2` — the first storage fact lands on the
last GPU row and each further storage fact takes a fresh row. -/
theorem c8_claim_counterexample :
    twoTwoInv.gpu.length = 2 ∧ twoTwoInv.storage.length = 2 ∧
    (rowsTouched (renderHost 2 "srv" (some twoTwoInv)).1).card = 3 ∧
    max (max twoTwoInv.gpu.length twoTwoInv.storage.length) 1 = 2 := by
  refine ⟨by decide, by decide, by decide, by decide⟩

/-- C8, amended: for a host with a populated inventory the renderer touches
exactly `max(gpu count, 1) + (storage count - 1)` rows (truncated
subtraction): one row per GPU (or one blank-GPU row), with the storage facts
starting on the last of those rows and each subsequent storage fact on a new
row.  This equals `max(gpu count, storage count, 1)` only when the GPU count
or the storage count is at most one. -/
theorem c8_row_fanout (r : Nat) (id : String) (d : HostInventory) (hr : 1 ≤ r) :
    (rowsTouched (renderHost r id (some d)).1).card =
      max d.gpu.length 1 + (d.storage.length - 1) := by
  have hm : 1 ≤ max d.gpu.length 1 := le_max_right _ _
  simp only [renderHost]
  rw [rowsTouched_append, rowsTouched_append, gpuPhase_rows, gpuPhase_snd]
  rw [storageLoop_rows d.storage (r + max d.gpu.length 1) (by omega)]
  have hset : Finset.Ico r (r + max d.gpu.length 1) ∪
      rowsTouched [(⟨r + max d.gpu.length 1 - 1, 5, d.cpu.count⟩ : CellWrite),
        ⟨r + max d.gpu.length 1 - 1, 6, d.cpu.type⟩,
        ⟨r + max d.gpu.length 1 - 1, 7, d.ram⟩] ∪
      Finset.Ico (r + max d.gpu.length 1 - 1)
        (r + max d.gpu.length 1 - 1 + d.storage.length) =
      Finset.Ico r (r + (max d.gpu.length 1 + (d.storage.length - 1))) := by
    ext x
    simp only [Finset.mem_union, Finset.mem_Ico, rowsTouched, List.map_cons,
      List.map_nil, List.toFinset_cons, List.toFinset_nil, Finset.mem_insert,
      Finset.not_mem_empty, or_false, List.mem_toFinset]
    omega
  rw [hset, Nat.card_Ico]
  omega

/-- C8, witness: the two-GPU, two-storage host at row 2 touches
`max(2, 1) + (2 - 1) = 3` rows. -/
theorem c8_row_fanout_witness :
    (1 ≤ 2) ∧
    (rowsTouched (renderHost 2 "srv" (some twoTwoInv)).1).card =
      max twoTwoInv.gpu.length 1 + (twoTwoInv.storage.length - 1) :=
  ⟨by omega, c8_row_fanout 2 "srv" twoTwoInv (by omega)⟩

end ServerInventory
